import Mathlib

/-!
Verification of the VOLTTRON control-plane supervisor and artifact-transfer
logic (`volttron/platform/control.py`) against its natural-language
specification.

The development shallowly embeds three parts of the source:

* the agent process supervisor (`_monitor_agents`, `_restart_agent`,
  `send_alert`) over an explicit crash-record association list;
* the pull-based chunked artifact transfer loop of `install_agent`, with the
  peer (sender) modelled as response oracles and the SHA-512 accumulator as
  an abstract hash over the list of bytes fed so far;
* the install/upgrade orchestration (`_identity_exists_but_no_force`,
  `_install_wheel_to_platform`, `backup_agent_data`,
  `restore_agent_data_from_tgz`) over an explicit registry state.

Bytes are modelled as natural numbers, byte strings as `List Nat`, and
fallible code returns `Except`.
-/

namespace Volttron

/-! ## Supervisor data model -/

/-- One row of `self._aip.status_agents()`: `(uid, name, (pid, stat), identity)`.
The `identity` component is unused by `_monitor_agents` and omitted. -/
structure AgentStat where
  uid : String
  name : String
  pid : Option Int
  stat : Option Int
deriving DecidableEq

/-- Python truthiness of the `stat` value: `None` (running) and `0` (cleanly
stopped) are falsy; any nonzero exit status is truthy (crashed). -/
def stat_truthy : Option Int → Bool
  | none => false
  | some s => s != 0

/-- `dict.get` on the crash-record association list (`self.crashed_agents`). -/
def lookupA (m : List (String × Nat)) (k : String) : Option Nat :=
  match m with
  | [] => none
  | p :: rest => if p.1 = k then some p.2 else lookupA rest k

/-- `dict[k] = v`: overwrite in place if the key is present, else append
(Python dicts preserve insertion order). -/
def insertA (m : List (String × Nat)) (k : String) (v : Nat) : List (String × Nat) :=
  match m with
  | [] => [(k, v)]
  | p :: rest => if p.1 = k then (k, v) :: rest else p :: insertA rest k v

/-- Key removal from the association list. -/
def eraseA (m : List (String × Nat)) (k : String) : List (String × Nat) :=
  m.filter (fun p => p.1 != k)

/-- `dict.pop(k)` with no default: raises `KeyError` when the key is absent
(`self.crashed_agents.pop(agent_id)` in `_restart_agent`). -/
def popA (m : List (String × Nat)) (k : String) : Except String (List (String × Nat)) :=
  match lookupA m k with
  | none => .error ("KeyError: " ++ k)
  | some _ => .ok (eraseA m k)

/-- The alert key built by `send_alert`:
`"Agent <name>(<uid>) stopped unexpectedly"`. -/
def alert_key (name uid : String) : String :=
  "Agent " ++ name ++ "(" ++ uid ++ ") stopped unexpectedly"

/-- Modelled from the spec: `self.vip.health.send_alert` is implemented by the
health subsystem of this repository, which is not under the given source tree.
Section 6 of the spec specifies the health/alert sink as a fire-and-forget
collaborator whose delivery failures are swallowed, so the call never raises
to its caller regardless of whether delivery fails. -/
def health_send_alert (deliveryFails : Bool) (key : String) : Except String Unit :=
  .ok ()

/-- Supervisor state observed across polls: the crash-record map plus the
record of scheduled one-shot restarts `(uid, name, delay in minutes)`, emitted
alert keys, and the uids examined by the polling loop. -/
structure SupState where
  crashed : List (String × Nat)
  restarts : List (String × String × Nat)
  alerts : List String
  polled : List String
deriving DecidableEq

def initSup : SupState := ⟨[], [], [], []⟩

/-- `attempt = self.crashed_agents.get(uid, -1) + 1`: `-1 + 1 = 0` when the
uid has no crash record, otherwise the stored count plus one. -/
def crash_attempt (crashed : List (String × Nat)) (uid : String) : Nat :=
  match lookupA crashed uid with
  | none => 0
  | some k => k + 1

/-- Body of the `for` loop of `_monitor_agents` for a single status row.
`attempt = crashed_agents.get(uid, -1) + 1`; if `attempt < 5` the updated
count is stored and a one-shot restart is scheduled for
`now + attempt * 5 minutes`; otherwise `send_alert` runs and the record is
popped.  An error raised by the alert sink propagates (the loop has no
exception handling). -/
def monitor_step (alertDeliveryFails : String → Bool) (st : SupState) (a : AgentStat) :
    Except String SupState :=
  if stat_truthy a.stat then
    if crash_attempt st.crashed a.uid < 5 then
      .ok { st with
              crashed := insertA st.crashed a.uid (crash_attempt st.crashed a.uid),
              restarts := st.restarts
                ++ [(a.uid, a.name, crash_attempt st.crashed a.uid * 5)],
              polled := st.polled ++ [a.uid] }
    else
      match health_send_alert (alertDeliveryFails a.uid) (alert_key a.name a.uid) with
      | .error e => .error e
      | .ok _ =>
        .ok { st with
                alerts := st.alerts ++ [alert_key a.name a.uid],
                crashed := eraseA st.crashed a.uid,
                polled := st.polled ++ [a.uid] }
  else
    .ok { st with polled := st.polled ++ [a.uid] }

/-- `_monitor_agents`: one poll over the status rows, in order.  An exception
raised while processing one agent aborts the remainder of the loop. -/
def monitor_agents (alertDeliveryFails : String → Bool) (st : SupState) :
    List AgentStat → Except String SupState
  | [] => .ok st
  | a :: rest =>
    match monitor_step alertDeliveryFails st a with
    | .error e => .error e
    | .ok st' => monitor_agents alertDeliveryFails st' rest

/-- Iterated periodic polling (`core.schedule(periodic(...), _monitor_agents)`). -/
def poll_iter (alertDeliveryFails : String → Bool) (stats : List AgentStat) :
    Nat → SupState → Except String SupState
  | 0, st => .ok st
  | n + 1, st =>
    match monitor_agents alertDeliveryFails st stats with
    | .error e => .error e
    | .ok st' => poll_iter alertDeliveryFails stats n st'

/-- `_restart_agent`: re-check the agent status; if still truthy, stop then
start (recorded as the returned action list); when the start returns status
`None` the crash record is popped with no default. -/
def restart_agent (crashed : List (String × Nat)) (uid : String)
    (current_stat start_stat : Option Int) :
    List String × Except String (List (String × Nat)) :=
  if stat_truthy current_stat then
    (["stop " ++ uid, "start " ++ uid],
      match start_stat with
      | none => popA crashed uid
      | some _ => .ok crashed)
  else
    ([], .ok crashed)

/-! ## Association-list lemmas -/

theorem lookupA_eraseA_self (m : List (String × Nat)) (k : String) :
    lookupA (eraseA m k) k = none := by
  induction m with
  | nil => rfl
  | cons p rest ih =>
    by_cases h : p.1 = k
    · simpa [eraseA, List.filter_cons, h] using ih
    · simpa [eraseA, List.filter_cons, h, lookupA] using ih

theorem monitor_step_ok (f : String → Bool) (st : SupState) (a : AgentStat) :
    ∃ st', monitor_step f st a = .ok st'
      ∧ st'.polled = st.polled ++ [a.uid]
      ∧ monitor_step (fun _ => false) st a = .ok st' := by
  unfold monitor_step health_send_alert
  split
  · split
    · exact ⟨_, rfl, rfl, rfl⟩
    · exact ⟨_, rfl, rfl, rfl⟩
  · exact ⟨_, rfl, rfl, rfl⟩

/-! ## Supervisor claims -/

/-- C2: for an agent that reports a non-clean status on every poll, the
supervisor schedules exactly 5 one-shot restart attempts, the k-th attempt
(k = 0..4) delayed by `k * 5` minutes from the poll that scheduled it; after
5 polls the crash record stores attempt 4 and no alert has fired, and on the
6th poll (where the attempt counter reaches 5) an alert naming the agent is
raised and the crash record is cleared, so it is absent immediately after
the alert. -/
theorem claim_c2 (uid name : String) (pid : Option Int) (s : Int) (hs : s ≠ 0) :
    poll_iter (fun _ => false) [⟨uid, name, pid, some s⟩] 5 initSup
      = .ok ⟨[(uid, 4)],
             [(uid, name, 0), (uid, name, 5), (uid, name, 10),
              (uid, name, 15), (uid, name, 20)],
             [], [uid, uid, uid, uid, uid]⟩
    ∧ poll_iter (fun _ => false) [⟨uid, name, pid, some s⟩] 6 initSup
      = .ok ⟨[],
             [(uid, name, 0), (uid, name, 5), (uid, name, 10),
              (uid, name, 15), (uid, name, 20)],
             [alert_key name uid], [uid, uid, uid, uid, uid, uid]⟩ := by
  constructor <;>
    simp [poll_iter, monitor_agents, monitor_step, stat_truthy, crash_attempt,
          lookupA, insertA, eraseA, alert_key, health_send_alert, initSup, hs,
          List.filter_cons]

theorem claim_c2_witness :
    (1 : Int) ≠ 0
    ∧ (poll_iter (fun _ => false) [⟨"u1", "agentA", none, some 1⟩] 5 initSup
        = .ok ⟨[("u1", 4)],
               [("u1", "agentA", 0), ("u1", "agentA", 5), ("u1", "agentA", 10),
                ("u1", "agentA", 15), ("u1", "agentA", 20)],
               [], ["u1", "u1", "u1", "u1", "u1"]⟩
      ∧ poll_iter (fun _ => false) [⟨"u1", "agentA", none, some 1⟩] 6 initSup
        = .ok ⟨[],
               [("u1", "agentA", 0), ("u1", "agentA", 5), ("u1", "agentA", 10),
                ("u1", "agentA", 15), ("u1", "agentA", 20)],
               [alert_key "agentA" "u1"], ["u1", "u1", "u1", "u1", "u1", "u1"]⟩) :=
  ⟨by decide, claim_c2 "u1" "agentA" none 1 (by decide)⟩

/-- C3: when a scheduled restart task runs and the agent is still unhealthy,
the supervisor issues stop then start; if the start reports no error status
the crash record for that uuid is removed — so a subsequent crash counts from
attempt 0 again and schedules an immediate (0-minute-delay) restart — and if
the start reports an error status the crash record is left in place. -/
theorem claim_c3 (crashed : List (String × Nat)) (uid nm : String)
    (cur : Option Int) (k : Nat)
    (hun : stat_truthy cur = true) (hmem : lookupA crashed uid = some k) :
    (restart_agent crashed uid cur none).1 = ["stop " ++ uid, "start " ++ uid]
    ∧ (restart_agent crashed uid cur none).2 = .ok (eraseA crashed uid)
    ∧ lookupA (eraseA crashed uid) uid = none
    ∧ (∀ e : Int, restart_agent crashed uid cur (some e)
        = (["stop " ++ uid, "start " ++ uid], .ok crashed))
    ∧ (∀ s : Int, s ≠ 0 →
        monitor_step (fun _ => false) ⟨eraseA crashed uid, [], [], []⟩
            ⟨uid, nm, none, some s⟩
          = .ok ⟨insertA (eraseA crashed uid) uid 0, [(uid, nm, 0)], [], [uid]⟩) := by
  refine ⟨?_, ?_, lookupA_eraseA_self crashed uid, ?_, ?_⟩
  · simp [restart_agent, hun]
  · simp [restart_agent, hun, popA, hmem]
  · intro e; simp [restart_agent, hun]
  · intro s hs
    simp [monitor_step, stat_truthy, crash_attempt, lookupA_eraseA_self, hs]

theorem claim_c3_witness :
    stat_truthy (some 1) = true
    ∧ lookupA [("u1", 2)] "u1" = some 2
    ∧ ((restart_agent [("u1", 2)] "u1" (some 1) none).1
        = ["stop " ++ "u1", "start " ++ "u1"]
      ∧ (restart_agent [("u1", 2)] "u1" (some 1) none).2
          = .ok (eraseA [("u1", 2)] "u1")
      ∧ lookupA (eraseA [("u1", 2)] "u1") "u1" = none
      ∧ (∀ e : Int, restart_agent [("u1", 2)] "u1" (some 1) (some e)
          = (["stop " ++ "u1", "start " ++ "u1"], .ok [("u1", 2)]))
      ∧ (∀ s : Int, s ≠ 0 →
          monitor_step (fun _ => false) ⟨eraseA [("u1", 2)] "u1", [], [], []⟩
              ⟨"u1", "agentA", none, some s⟩
            = .ok ⟨insertA (eraseA [("u1", 2)] "u1") "u1" 0,
                   [("u1", "agentA", 0)], [], ["u1"]⟩)) :=
  ⟨by decide, by decide, claim_c3 [("u1", 2)] "u1" "agentA" (some 1) 2
      (by decide) (by decide)⟩

/-- C9: a failure while emitting an alert never propagates out of the
supervisor's poll.  The health sink (modelled from the spec, §6) swallows
delivery failures, so for every poll over any set of agents and any pattern
of delivery failures the loop result is independent of the failures, ends in
success, and every agent in the list is processed. -/
theorem claim_c9 (fail : String → Bool) (st : SupState) (stats : List AgentStat) :
    monitor_agents fail st stats = monitor_agents (fun _ => false) st stats
    ∧ ∃ st2, monitor_agents fail st stats = .ok st2
        ∧ st2.polled = st.polled ++ stats.map AgentStat.uid := by
  induction stats generalizing st with
  | nil => exact ⟨rfl, st, rfl, by simp⟩
  | cons a rest ih =>
    obtain ⟨st', hstep, hpolled, hstep0⟩ := monitor_step_ok fail st a
    obtain ⟨heq, st2, hok, hpol⟩ := ih st'
    refine ⟨?_, st2, ?_, ?_⟩
    · simp only [monitor_agents, hstep, hstep0, heq]
    · simp only [monitor_agents, hstep, hok]
    · simp [hpol, hpolled, List.append_assoc]

/-- C10: the successful-restart path of `_restart_agent` removes the uuid
from the crash map with a pop that has no default; if the crash record is
absent while the agent is still unhealthy and the start succeeds, the restart
task itself raises `KeyError` after the stop/start actions were issued. -/
theorem claim_c10 (crashed : List (String × Nat)) (uid : String) (cur : Option Int)
    (hun : stat_truthy cur = true) (habsent : lookupA crashed uid = none) :
    restart_agent crashed uid cur none
      = (["stop " ++ uid, "start " ++ uid], .error ("KeyError: " ++ uid)) := by
  simp [restart_agent, hun, popA, habsent]

theorem claim_c10_witness :
    stat_truthy (some 139) = true
    ∧ lookupA [] "u9" = none
    ∧ restart_agent [] "u9" (some 139) none
        = (["stop " ++ "u9", "start " ++ "u9"], .error ("KeyError: " ++ "u9")) :=
  ⟨by decide, by decide, claim_c10 [] "u9" (some 139) (by decide) (by decide)⟩

/-! ## Artifact transfer protocol -/

/-- The literal end-of-stream sentinel `b"complete"` as a byte list. -/
def completeSentinel : List Nat := [99, 111, 109, 112, 108, 101, 116, 101]

/-- The remote sender, seen by the receiver as two response oracles: the
reply to the n-th `["fetch", 1024]` request and the reply to the n-th
`["checksum"]` request.  `none` models a receive that exceeds the 30-second
bound (`gevent.Timeout`). -/
structure Peer where
  fetchResp : Nat → Option (List Nat)
  checksumResp : Nat → Option (List Nat)

/-- Receiver-side session state: bytes written to the destination file
(`store.write`), bytes fed to the checksum accumulator (`sha512.update`),
count of fetch and checksum requests sent, and the digest accepted at the
most recent checksum exchange. -/
structure TransferState where
  written : List Nat
  fed : List Nat
  fetches : Nat
  checksums : Nat
  lastAccepted : Option (List Nat)
deriving DecidableEq

def initTransfer : TransferState := ⟨[], [], 0, 0, none⟩

inductive TransferError where
  | timeout
  | checksumMismatch
  | fuelOut
deriving DecidableEq

inductive TransferResult where
  | done : TransferState → TransferResult
  | failed : TransferError → TransferState → TransferResult
deriving DecidableEq

/-- State after a fetch request whose receive timed out. -/
def afterFetchSt (st : TransferState) : TransferState :=
  { st with fetches := st.fetches + 1 }

/-- State after receiving chunk bytes and sending the checksum request
(chunk appended to accumulator and file, both counters advanced). -/
def afterChunkSt (st : TransferState) (chunk : List Nat) : TransferState :=
  { st with
      written := st.written ++ chunk,
      fed := st.fed ++ chunk,
      fetches := st.fetches + 1,
      checksums := st.checksums + 1 }

/-- The `while True` receive loop of `install_agent`: send a fetch request
and receive with a 30s bound; break on the `b"complete"` sentinel; otherwise
feed the chunk to the accumulator, write it to the store, exchange a
checksum, and `assert checksum == sha512.digest()`.  `H` is the abstract
SHA-512 digest over the bytes fed so far; `fuel` bounds the iterations so
the model stays total. -/
def transferLoop (peer : Peer) (H : List Nat → List Nat) :
    Nat → TransferState → TransferResult
  | 0, st => .failed .fuelOut st
  | f + 1, st =>
    match peer.fetchResp st.fetches with
    | none => .failed .timeout (afterFetchSt st)
    | some chunk =>
      if chunk = completeSentinel then
        .done (afterFetchSt st)
      else
        match peer.checksumResp st.checksums with
        | none => .failed .timeout (afterChunkSt st chunk)
        | some d =>
          if d = H (st.fed ++ chunk) then
            transferLoop peer H f { afterChunkSt st chunk with lastAccepted := some d }
          else
            .failed .checksumMismatch (afterChunkSt st chunk)

/-- The honest sender of the documented protocol: an advancing read cursor
over the artifact bytes; a fetch reply is the next chunk of up to `C` bytes,
or the literal completion sentinel once the cursor has reached end-of-file;
a checksum reply is the digest over exactly the bytes sent so far. -/
def honestPeer (H : List Nat → List Nat) (C : Nat) (data : List Nat) : Peer :=
  { fetchResp := fun n =>
      some (if ((data.drop (n * C)).take C).isEmpty then completeSentinel
            else (data.drop (n * C)).take C),
    checksumResp := fun n => some (H (data.take ((n + 1) * C))) }

/-! ## Transfer-loop lemmas for the honest sender -/

theorem transferLoop_honest_done (H : List Nat → List Nat) (C : Nat)
    (data : List Nat) (f n : Nat) (acc : Option (List Nat))
    (hle : data.length ≤ n * C) :
    transferLoop (honestPeer H C data) H (f + 1)
        ⟨data.take (n * C), data.take (n * C), n, n, acc⟩
      = .done ⟨data, data, n + 1, n, acc⟩ := by
  have hdrop : data.drop (n * C) = [] := List.drop_eq_nil_of_le hle
  have htake : data.take (n * C) = data := List.take_of_length_le hle
  simp only [transferLoop, honestPeer, hdrop, List.take_nil, List.isEmpty_nil,
             if_true]
  simp [afterFetchSt, htake]

theorem transferLoop_honest_step (H : List Nat → List Nat) (C : Nat)
    (data : List Nat) (f n : Nat) (acc : Option (List Nat))
    (hC : 0 < C) (hlt : n * C < data.length)
    (hsent : (data.drop (n * C)).take C ≠ completeSentinel) :
    transferLoop (honestPeer H C data) H (f + 1)
        ⟨data.take (n * C), data.take (n * C), n, n, acc⟩
      = transferLoop (honestPeer H C data) H f
          ⟨data.take ((n + 1) * C), data.take ((n + 1) * C), n + 1, n + 1,
           some (H (data.take ((n + 1) * C)))⟩ := by
  have hfed : data.take (n * C) ++ (data.drop (n * C)).take C
      = data.take ((n + 1) * C) := by
    rw [Nat.succ_mul, List.take_add]
  have hlen : 0 < ((data.drop (n * C)).take C).length := by
    rw [List.length_take, List.length_drop]; omega
  have hemp : ((data.drop (n * C)).take C).isEmpty = false := by
    cases hcc : ((data.drop (n * C)).take C).isEmpty
    · rfl
    · rw [List.isEmpty_iff.mp hcc] at hlen; simp at hlen
  simp only [transferLoop, honestPeer, hemp, Bool.false_eq_true, if_false, hsent,
             ite_false, afterChunkSt, hfed]
  simp

theorem transfer_loop_inv (H : List Nat → List Nat) (C : Nat) (data : List Nat)
    (hC : 0 < C)
    (hs : ∀ m, m * C < data.length → (data.drop (m * C)).take C ≠ completeSentinel) :
    ∀ f n acc, data.length - n * C < f →
      acc = (if n = 0 then none else some (H (data.take (n * C)))) →
      ∃ st, transferLoop (honestPeer H C data) H f
          ⟨data.take (n * C), data.take (n * C), n, n, acc⟩ = .done st
        ∧ st.written = data ∧ st.fed = data
        ∧ st.lastAccepted = (if data.length ≤ n * C then acc else some (H data)) := by
  intro f
  induction f with
  | zero => intro n acc h hacc; omega
  | succ f ih =>
    intro n acc h hacc
    by_cases hle : data.length ≤ n * C
    · rw [transferLoop_honest_done H C data f n acc hle]
      exact ⟨_, rfl, rfl, rfl, by simp [hle]⟩
    · have hlt : n * C < data.length := by omega
      rw [transferLoop_honest_step H C data f n acc hC hlt (hs n hlt)]
      have hmul : (n + 1) * C = n * C + C := Nat.succ_mul n C
      obtain ⟨st, hdone, hw, hf, hacc'⟩ :=
        ih (n + 1) (some (H (data.take ((n + 1) * C)))) (by omega) (by simp)
      refine ⟨st, hdone, hw, hf, ?_⟩
      rw [hacc', if_neg hle]
      by_cases hle2 : data.length ≤ (n + 1) * C
      · rw [if_pos hle2, List.take_of_length_le hle2]
      · rw [if_neg hle2]

/-! ## Transfer claims -/

/-- C1 (amended): for every artifact and chunk size `C > 0` such that no
chunk read from the sender's advancing cursor equals the literal
`b"complete"` sentinel, the chunked pull session driven against the honest
sender completes, the bytes written to the destination file equal the
original artifact bytes, the accumulator was fed exactly those bytes, and
the digest accepted at the last checksum exchange is the hash of the
reconstructed bytes. -/
theorem claim_c1_amended (H : List Nat → List Nat) (C : Nat) (data : List Nat)
    (hC : 0 < C)
    (hs : ∀ m, m * C < data.length → (data.drop (m * C)).take C ≠ completeSentinel)
    (f : Nat) (hf : data.length < f) :
    ∃ st, transferLoop (honestPeer H C data) H f initTransfer = .done st
      ∧ st.written = data ∧ st.fed = data
      ∧ (data ≠ [] → st.lastAccepted = some (H data)) := by
  obtain ⟨st, hdone, hw, hfd, hacc⟩ :=
    transfer_loop_inv H C data hC hs f 0 none (by simpa using hf) (by simp)
  refine ⟨st, ?_, hw, hfd, ?_⟩
  · simpa [initTransfer] using hdone
  · intro hne
    rw [hacc, if_neg]
    simpa using fun hz => hne (List.eq_nil_of_length_eq_zero hz)

theorem claim_c1_amended_witness :
    (0 < 1024
      ∧ (∀ m, m * 1024 < ([1, 2, 3] : List Nat).length →
          (([1, 2, 3] : List Nat).drop (m * 1024)).take 1024 ≠ completeSentinel)
      ∧ ([1, 2, 3] : List Nat).length < 4)
    ∧ ∃ st, transferLoop (honestPeer (fun l => l) 1024 [1, 2, 3]) (fun l => l) 4
          initTransfer = .done st
        ∧ st.written = [1, 2, 3] ∧ st.fed = [1, 2, 3]
        ∧ (([1, 2, 3] : List Nat) ≠ [] → st.lastAccepted = some [1, 2, 3]) :=
  ⟨⟨by decide,
    fun m hm => by
      have hm0 : m = 0 := by simp at hm; omega
      subst hm0; decide,
    by decide⟩,
   claim_c1_amended (fun l => l) 1024 [1, 2, 3] (by decide)
     (fun m hm => by
       have hm0 : m = 0 := by simp at hm; omega
       subst hm0; decide)
     4 (by decide)⟩

/-- C1 counterexample: the claim fails as stated.  For the artifact whose
bytes are exactly the literal `b"complete"` (8 bytes, chunk size 1024), the
honest sender's first chunk is the artifact itself, the receiver mistakes it
for the completion sentinel and finishes the session having written nothing:
the bytes written at the completion sentinel are `[]`, not the original
artifact bytes. -/
theorem claim_c1_counterexample :
    transferLoop (honestPeer (fun l => l) 1024 completeSentinel) (fun l => l) 2
        initTransfer
      = .done ⟨[], [], 1, 0, none⟩
    ∧ ([] : List Nat) ≠ completeSentinel := by
  constructor
  · decide
  · decide

/-- C8: for an empty (0-byte) artifact the transfer session completes after
the first fetch returns the completion sentinel: one fetch request, no chunk
written, no checksum exchange performed, no bytes fed to the accumulator,
and no digest accepted. -/
theorem claim_c8 (H : List Nat → List Nat) (C : Nat) (f : Nat) :
    transferLoop (honestPeer H C []) H (f + 1) initTransfer
      = .done ⟨[], [], 1, 0, none⟩ := by
  simpa [initTransfer] using transferLoop_honest_done H C [] f 0 none (by simp)

/-! ## Registry and install orchestration -/

/-- An installed agent as the orchestrator sees it: vip identity, the private
agent-data directory (file name to content), and the keystore keypair. -/
structure AgentRec where
  ident : String
  dataDir : List (String × List Nat)
  pub : Option String
  sec : Option String
deriving DecidableEq

/-- The agent registry: installed agents in insertion order, keyed by uuid,
plus the next fresh uuid handed out by `aip.install_agent`. -/
structure Registry where
  agents : List (Nat × AgentRec)
  next : Nat
deriving DecidableEq

/-- Registry lookup by uuid. -/
def lookupL (l : List (Nat × AgentRec)) (u : Nat) : Option AgentRec :=
  match l with
  | [] => none
  | p :: rest => if p.1 = u then some p.2 else lookupL rest u

/-- `remove_agent`: drop the uuid from the registry. -/
def eraseL (l : List (Nat × AgentRec)) (u : Nat) : List (Nat × AgentRec) :=
  l.filter (fun p => p.1 != u)

/-- Replace the data directory of the agent with the given uuid. -/
def updateDirL (l : List (Nat × AgentRec)) (u : Nat)
    (d : List (String × List Nat)) : List (Nat × AgentRec) :=
  match l with
  | [] => []
  | p :: rest =>
    (if p.1 = u then (p.1, { p.2 with dataDir := d }) else p) :: updateDirL rest u d

/-- `_identity_exists` scanning `list_agents()` in registry order. -/
def identity_exists_l (l : List (Nat × AgentRec)) (ident : String) : Option Nat :=
  match l with
  | [] => none
  | p :: rest => if p.2.ident = ident then some p.1 else identity_exists_l rest ident

def identity_exists (reg : Registry) (ident : String) : Option Nat :=
  identity_exists_l reg.agents ident

/-- Outcomes surfaced by `install_agent`: the identity conflict (`ValueError`
from `_identity_exists_but_no_force`), the two session-fatal transfer errors
(`gevent.Timeout` and the checksum `AssertionError`), and exhausted fuel of
the loop model. -/
inductive InstallError where
  | identityConflict
  | timeout
  | checksumMismatch
  | fuelOut
deriving DecidableEq

def liftTransferError : TransferError → InstallError
  | .timeout => .timeout
  | .checksumMismatch => .checksumMismatch
  | .fuelOut => .fuelOut

/-- `_identity_exists_but_no_force`: look the identity up (skipped for a
falsy identity); if an agent exists and `force` is false, raise. -/
def identity_exists_but_no_force (reg : Registry) (vip_identity : String)
    (force : Bool) : Except InstallError (Option Nat × Bool) :=
  let agent_uuid := if vip_identity = "" then none
                    else identity_exists reg vip_identity
  match agent_uuid with
  | none => .ok (none, false)
  | some u => if force then .ok (some u, true) else .error .identityConflict

/-- `backup_agent_data`: a tarball snapshot of the data directory. -/
def backup_agent_data (source_dir : List (String × List Nat)) :
    List (String × List Nat) :=
  source_dir

/-- `restore_agent_data_from_tgz`: `extractall` into the destination —
archive entries overwrite, destination files absent from the archive stay. -/
def restore_agent_data_from_tgz (archive dest : List (String × List Nat)) :
    List (String × List Nat) :=
  archive ++ dest.filter (fun fl => archive.all (fun a => a.1 != fl.1))

/-- `aip.install_agent`: register the artifact under the identity with the
given keypair, with a fresh uuid and an empty data directory. -/
def aip_install_agent (reg : Registry) (ident : String)
    (pub sec : Option String) : Nat × Registry :=
  (reg.next, ⟨reg.agents ++ [(reg.next, ⟨ident, [], pub, sec⟩)], reg.next + 1⟩)

/-- Observable registry-mutating events of `_install_wheel_to_platform`, in
execution order. -/
inductive Event where
  | backup (u : Nat)
  | readKeystore (u : Nat)
  | removeOld (u : Nat)
  | installNew (u : Nat)
  | restoreData (u : Nat)
deriving DecidableEq

/-- `_install_wheel_to_platform`: when a prior agent exists, back up its data
directory, read its keystore, remove it, install the new artifact with the
preserved keypair, and restore the backup into the new agent's data
directory; otherwise plain install with no keys. -/
def install_wheel_to_platform (reg : Registry) (agent_uuid : Option Nat)
    (vip_identity : String) (agent_existed_before : Bool) :
    Nat × Registry × List Event :=
  match agent_uuid with
  | none =>
    let fresh := aip_install_agent reg vip_identity none none
    (fresh.1, fresh.2, [Event.installNew fresh.1])
  | some old =>
    let rec0 := (lookupL reg.agents old).getD ⟨vip_identity, [], none, none⟩
    let archive := backup_agent_data rec0.dataDir
    let regRemoved : Registry := ⟨eraseL reg.agents old, reg.next⟩
    let fresh := aip_install_agent regRemoved vip_identity rec0.pub rec0.sec
    if agent_existed_before then
      let newDir :=
        ((lookupL fresh.2.agents fresh.1).getD ⟨vip_identity, [], none, none⟩).dataDir
      let reg2 : Registry :=
        ⟨updateDirL fresh.2.agents fresh.1 (restore_agent_data_from_tgz archive newDir),
         fresh.2.next⟩
      (fresh.1, reg2,
       [Event.backup old, Event.readKeystore old, Event.removeOld old,
        Event.installNew fresh.1, Event.restoreData fresh.1])
    else
      (fresh.1, fresh.2,
       [Event.backup old, Event.readKeystore old, Event.removeOld old,
        Event.installNew fresh.1])

deriving instance DecidableEq for Except

/-- Result of one `install_agent` RPC: the returned uuid or raised error, the
registry afterwards, the registry-mutating events, whether a transfer session
was started, the resource state on exit (`store.close()` and
`channel.close(linger=0)` in the inner `finally`, `shutil.rmtree(tmpdir)` in
the outer `finally`), and the bytes of the temporary file. -/
structure InstallOutcome where
  result : Except InstallError Nat
  registry : Registry
  events : List Event
  transferStarted : Bool
  storeClosed : Bool
  channelClosed : Bool
  tmpdirRemoved : Bool
  written : List Nat
deriving DecidableEq

/-- The `install_agent` RPC: identity check first (before the channel and the
temporary directory exist), then the chunked transfer into the temporary
file, then `_install_wheel_to_platform`; transfer failures propagate after
the `finally` blocks release the store, the channel and the tmpdir. -/
def install_agent (reg : Registry) (vip_identity : String) (force : Bool)
    (peer : Peer) (H : List Nat → List Nat) (fuel : Nat) : InstallOutcome :=
  match identity_exists_but_no_force reg vip_identity force with
  | .error e => ⟨.error e, reg, [], false, true, true, true, []⟩
  | .ok (agent_uuid, agent_existed_before) =>
    match transferLoop peer H fuel initTransfer with
    | .failed err st =>
      ⟨.error (liftTransferError err), reg, [], true, true, true, true, st.written⟩
    | .done st =>
      let res := install_wheel_to_platform reg agent_uuid vip_identity
        agent_existed_before
      ⟨.ok res.1, res.2.1, res.2.2, true, true, true, true, st.written⟩

/-! ## Registry lemmas -/

theorem lookupL_eraseL_self (l : List (Nat × AgentRec)) (u : Nat) :
    lookupL (eraseL l u) u = none := by
  induction l with
  | nil => rfl
  | cons p rest ih =>
    by_cases h : p.1 = u
    · simpa [eraseL, List.filter_cons, h] using ih
    · simpa [eraseL, List.filter_cons, h, lookupL] using ih

theorem eraseL_subset (l : List (Nat × AgentRec)) (u : Nat) (p : Nat × AgentRec)
    (hp : p ∈ eraseL l u) : p ∈ l :=
  (List.mem_filter.mp hp).1

theorem lookupL_eq_none (l : List (Nat × AgentRec)) (u : Nat)
    (h : ∀ p ∈ l, p.1 ≠ u) : lookupL l u = none := by
  induction l with
  | nil => rfl
  | cons p rest ih =>
    have hp : p.1 ≠ u := h p (List.mem_cons_self p rest)
    simpa [lookupL, hp] using ih (fun q hq => h q (List.mem_cons_of_mem p hq))

theorem mem_of_lookupL (l : List (Nat × AgentRec)) (u : Nat) (r : AgentRec)
    (h : lookupL l u = some r) : (u, r) ∈ l := by
  induction l with
  | nil => simp [lookupL] at h
  | cons p rest ih =>
    by_cases hp : p.1 = u
    · simp only [lookupL, hp, if_true, Option.some.injEq] at h
      subst h
      exact hp ▸ List.mem_cons_self p rest
    · simp only [lookupL, hp, if_false] at h
      exact List.mem_cons_of_mem p (ih h)

theorem lookupL_append_none (l1 l2 : List (Nat × AgentRec)) (u : Nat)
    (h : lookupL l1 u = none) : lookupL (l1 ++ l2) u = lookupL l2 u := by
  induction l1 with
  | nil => rfl
  | cons p rest ih =>
    by_cases hp : p.1 = u
    · simp [lookupL, hp] at h
    · simp only [lookupL, hp, if_false] at h
      simpa [lookupL, hp] using ih h

theorem lookupL_updateDirL (l : List (Nat × AgentRec)) (u : Nat)
    (d : List (String × List Nat)) (v : Nat) :
    lookupL (updateDirL l u d) v
      = (lookupL l v).map (fun r => if v = u then { r with dataDir := d } else r) := by
  induction l with
  | nil => rfl
  | cons p rest ih =>
    by_cases hpu : p.1 = u
    · by_cases hpv : p.1 = v
      · simp [updateDirL, lookupL, hpu, hpv, hpv ▸ hpu]
      · have huv : ¬u = v := fun h => hpv (hpu.trans h)
        simp [updateDirL, lookupL, hpu, hpv, huv, ih]
    · by_cases hpv : p.1 = v
      · have hvu : v ≠ u := fun hv => hpu (hpv.trans hv)
        simp [updateDirL, lookupL, hpu, hpv, hvu]
      · simp [updateDirL, lookupL, hpu, hpv, ih]

/-! ## Install claims -/

/-- C4: if the digest returned at any checksum exchange differs from the
receiver's accumulated hash, the session fails at once with a
checksum-mismatch error and no internal retry; surfaced through
`install_agent`, the temporary file is closed and the temporary directory
discarded, and no registry mutation (no event, registry unchanged) has
occurred. -/
theorem claim_c4 (peer : Peer) (H : List Nat → List Nat)
    (f : Nat) (st : TransferState) (chunk d : List Nat)
    (h1 : peer.fetchResp st.fetches = some chunk)
    (h2 : chunk ≠ completeSentinel)
    (h3 : peer.checksumResp st.checksums = some d)
    (h4 : d ≠ H (st.fed ++ chunk))
    (reg : Registry) (ident : String) (force : Bool)
    (prior : Option Nat) (existed : Bool)
    (h5 : identity_exists_but_no_force reg ident force = .ok (prior, existed))
    (f2 : Nat) (st2 : TransferState)
    (h6 : transferLoop peer H f2 initTransfer = .failed .checksumMismatch st2) :
    transferLoop peer H (f + 1) st = .failed .checksumMismatch (afterChunkSt st chunk)
    ∧ install_agent reg ident force peer H f2
        = ⟨.error .checksumMismatch, reg, [], true, true, true, true, st2.written⟩ := by
  constructor
  · simp only [transferLoop, h1, h3, if_neg h2, if_neg h4]
  · simp [install_agent, h5, h6, liftTransferError]

theorem claim_c4_witness :
    ((⟨fun _ => some [5], fun _ => some [0]⟩ : Peer).fetchResp
        initTransfer.fetches = some [5]
      ∧ ([5] : List Nat) ≠ completeSentinel
      ∧ (⟨fun _ => some [5], fun _ => some [0]⟩ : Peer).checksumResp
          initTransfer.checksums = some [0]
      ∧ ([0] : List Nat) ≠ (fun l => l) (initTransfer.fed ++ [5])
      ∧ identity_exists_but_no_force ⟨[], 0⟩ "agent.x" false = .ok (none, false)
      ∧ transferLoop ⟨fun _ => some [5], fun _ => some [0]⟩ (fun l => l) 1
          initTransfer = .failed .checksumMismatch ⟨[5], [5], 1, 1, none⟩)
    ∧ transferLoop ⟨fun _ => some [5], fun _ => some [0]⟩ (fun l => l) 1
        initTransfer = .failed .checksumMismatch (afterChunkSt initTransfer [5])
    ∧ install_agent ⟨[], 0⟩ "agent.x" false ⟨fun _ => some [5], fun _ => some [0]⟩
        (fun l => l) 1
      = ⟨.error .checksumMismatch, ⟨[], 0⟩, [], true, true, true, true,
         (⟨[5], [5], 1, 1, none⟩ : TransferState).written⟩ :=
  ⟨⟨by decide, by decide, by decide, by decide, by decide, by decide⟩,
   claim_c4 ⟨fun _ => some [5], fun _ => some [0]⟩ (fun l => l) 0 initTransfer
     [5] [0] (by decide) (by decide) (by decide) (by decide) ⟨[], 0⟩ "agent.x"
     false none false (by decide) 1 ⟨[5], [5], 1, 1, none⟩ (by decide)⟩

/-- C5: a receive that exceeds the 30-second bound — on the chunk receive or
on the checksum receive — aborts the session at once with a Timeout error
and no internal retry; surfaced through `install_agent` the error reaches
the caller as a timeout; and on every exit path of `install_agent` (success,
timeout, or mismatch) the temporary file is closed, the channel is closed
and the temporary directory is removed. -/
theorem claim_c5 (peer : Peer) (H : List Nat → List Nat)
    (f1 : Nat) (st1 : TransferState)
    (h1 : peer.fetchResp st1.fetches = none)
    (f2 : Nat) (st2 : TransferState) (chunk : List Nat)
    (h2 : peer.fetchResp st2.fetches = some chunk)
    (h3 : chunk ≠ completeSentinel)
    (h4 : peer.checksumResp st2.checksums = none)
    (reg : Registry) (ident : String) (force : Bool)
    (prior : Option Nat) (existed : Bool)
    (h5 : identity_exists_but_no_force reg ident force = .ok (prior, existed))
    (f3 : Nat) (st3 : TransferState)
    (h6 : transferLoop peer H f3 initTransfer = .failed .timeout st3) :
    transferLoop peer H (f1 + 1) st1 = .failed .timeout (afterFetchSt st1)
    ∧ transferLoop peer H (f2 + 1) st2 = .failed .timeout (afterChunkSt st2 chunk)
    ∧ install_agent reg ident force peer H f3
        = ⟨.error .timeout, reg, [], true, true, true, true, st3.written⟩
    ∧ ∀ (reg2 : Registry) (id2 : String) (fc2 : Bool) (peer2 : Peer)
        (H2 : List Nat → List Nat) (fl2 : Nat),
        (install_agent reg2 id2 fc2 peer2 H2 fl2).storeClosed = true
        ∧ (install_agent reg2 id2 fc2 peer2 H2 fl2).channelClosed = true
        ∧ (install_agent reg2 id2 fc2 peer2 H2 fl2).tmpdirRemoved = true := by
  refine ⟨?_, ?_, ?_, ?_⟩
  · simp only [transferLoop, h1]
  · simp only [transferLoop, h2, if_neg h3, h4]
  · simp [install_agent, h5, h6, liftTransferError]
  · intro reg2 id2 fc2 peer2 H2 fl2
    rcases hck : identity_exists_but_no_force reg2 id2 fc2 with e | pr
    · simp [install_agent, hck]
    · rcases hlp : transferLoop peer2 H2 fl2 initTransfer with stx | ⟨er, stx⟩
      · simp [install_agent, hck, hlp]
      · simp [install_agent, hck, hlp]

theorem claim_c5_witness :
    ((⟨fun n => if n = 0 then some [7] else none, fun _ => none⟩ : Peer).fetchResp
        (⟨[7], [7], 1, 1, none⟩ : TransferState).fetches = none
      ∧ (⟨fun n => if n = 0 then some [7] else none, fun _ => none⟩ : Peer).fetchResp
          initTransfer.fetches = some [7]
      ∧ ([7] : List Nat) ≠ completeSentinel
      ∧ (⟨fun n => if n = 0 then some [7] else none, fun _ => none⟩ : Peer).checksumResp
          initTransfer.checksums = none
      ∧ identity_exists_but_no_force ⟨[], 0⟩ "agent.y" false = .ok (none, false)
      ∧ transferLoop ⟨fun n => if n = 0 then some [7] else none, fun _ => none⟩
          (fun l => l) 1 initTransfer = .failed .timeout ⟨[7], [7], 1, 1, none⟩)
    ∧ transferLoop ⟨fun n => if n = 0 then some [7] else none, fun _ => none⟩
        (fun l => l) 3 ⟨[7], [7], 1, 1, none⟩
      = .failed .timeout (afterFetchSt ⟨[7], [7], 1, 1, none⟩)
    ∧ transferLoop ⟨fun n => if n = 0 then some [7] else none, fun _ => none⟩
        (fun l => l) 1 initTransfer
      = .failed .timeout (afterChunkSt initTransfer [7])
    ∧ install_agent ⟨[], 0⟩ "agent.y" false
        ⟨fun n => if n = 0 then some [7] else none, fun _ => none⟩ (fun l => l) 1
      = ⟨.error .timeout, ⟨[], 0⟩, [], true, true, true, true,
         (⟨[7], [7], 1, 1, none⟩ : TransferState).written⟩
    ∧ ∀ (reg2 : Registry) (id2 : String) (fc2 : Bool) (peer2 : Peer)
        (H2 : List Nat → List Nat) (fl2 : Nat),
        (install_agent reg2 id2 fc2 peer2 H2 fl2).storeClosed = true
        ∧ (install_agent reg2 id2 fc2 peer2 H2 fl2).channelClosed = true
        ∧ (install_agent reg2 id2 fc2 peer2 H2 fl2).tmpdirRemoved = true :=
  ⟨⟨by decide, by decide, by decide, by decide, by decide, by decide⟩,
   claim_c5 ⟨fun n => if n = 0 then some [7] else none, fun _ => none⟩ (fun l => l)
     2 ⟨[7], [7], 1, 1, none⟩ (by decide) 0 initTransfer [7] (by decide)
     (by decide) (by decide) ⟨[], 0⟩ "agent.y" false none false (by decide)
     1 ⟨[7], [7], 1, 1, none⟩ (by decide)⟩

/-- C6: `install_agent` with `force = false` for an identity that already
resolves to an installed agent fails with the identity-conflict error before
any transfer session is started and before any registry mutation, leaving
the registry unchanged. -/
theorem claim_c6 (reg : Registry) (ident : String) (u : Nat)
    (hne : ident ≠ "") (hid : identity_exists reg ident = some u)
    (peer : Peer) (H : List Nat → List Nat) (fuel : Nat) :
    install_agent reg ident false peer H fuel
      = ⟨.error .identityConflict, reg, [], false, true, true, true, []⟩ := by
  simp [install_agent, identity_exists_but_no_force, hne, hid]

theorem claim_c6_witness :
    ("platform.x" : String) ≠ ""
    ∧ identity_exists ⟨[(0, ⟨"platform.x", [("f", [1])], some "PK", some "SK"⟩)], 1⟩
        "platform.x" = some 0
    ∧ install_agent ⟨[(0, ⟨"platform.x", [("f", [1])], some "PK", some "SK"⟩)], 1⟩
        "platform.x" false ⟨fun _ => none, fun _ => none⟩ (fun l => l) 5
      = ⟨.error .identityConflict,
         ⟨[(0, ⟨"platform.x", [("f", [1])], some "PK", some "SK"⟩)], 1⟩,
         [], false, true, true, true, []⟩ :=
  ⟨by decide, by decide,
   claim_c6 ⟨[(0, ⟨"platform.x", [("f", [1])], some "PK", some "SK"⟩)], 1⟩
     "platform.x" 0 (by decide) (by decide) ⟨fun _ => none, fun _ => none⟩
     (fun l => l) 5⟩

/-- C7: a `force = true` install over an existing identity backs up the old
agent's data directory before the old agent is removed, reads its keypair
and passes it to the new installation, removes the old uuid before the new
install, and restores the archive into the new agent's data directory after
the install (witnessed by the exact event order); consequently the new
agent's record carries the old keypair, every file of the old data directory
is present in the new agent's data directory, and the old uuid no longer
resolves in the registry. -/
theorem claim_c7 (reg : Registry) (ident : String) (oldU : Nat) (rec0 : AgentRec)
    (hne : ident ≠ "")
    (hb : ∀ p ∈ reg.agents, p.1 < reg.next)
    (hid : identity_exists reg ident = some oldU)
    (hrec : lookupL reg.agents oldU = some rec0)
    (peer : Peer) (H : List Nat → List Nat) (fuel : Nat) (st : TransferState)
    (htr : transferLoop peer H fuel initTransfer = .done st) :
    (install_agent reg ident true peer H fuel).result = .ok reg.next
    ∧ (install_agent reg ident true peer H fuel).events
        = [Event.backup oldU, Event.readKeystore oldU, Event.removeOld oldU,
           Event.installNew reg.next, Event.restoreData reg.next]
    ∧ lookupL (install_agent reg ident true peer H fuel).registry.agents oldU = none
    ∧ ∃ nr, lookupL (install_agent reg ident true peer H fuel).registry.agents
          reg.next = some nr
        ∧ nr.pub = rec0.pub ∧ nr.sec = rec0.sec
        ∧ ∀ fl ∈ rec0.dataDir, fl ∈ nr.dataDir := by
  have hold_lt : oldU < reg.next := hb _ (mem_of_lookupL _ _ _ hrec)
  have hcheck : identity_exists_but_no_force reg ident true = .ok (some oldU, true) := by
    simp [identity_exists_but_no_force, hne, hid]
  have hAkeys : ∀ p ∈ eraseL reg.agents oldU, p.1 ≠ reg.next :=
    fun p hp => Nat.ne_of_lt (hb p (eraseL_subset _ _ _ hp))
  have hAnone : lookupL (eraseL reg.agents oldU) reg.next = none :=
    lookupL_eq_none _ _ hAkeys
  have hnewrec :
      lookupL (eraseL reg.agents oldU
          ++ [(reg.next, ⟨ident, [], rec0.pub, rec0.sec⟩)]) reg.next
        = some ⟨ident, [], rec0.pub, rec0.sec⟩ := by
    rw [lookupL_append_none _ _ _ hAnone]
    simp [lookupL]
  have hwheel : install_wheel_to_platform reg (some oldU) ident true
      = (reg.next,
         ⟨updateDirL (eraseL reg.agents oldU
             ++ [(reg.next, ⟨ident, [], rec0.pub, rec0.sec⟩)]) reg.next rec0.dataDir,
          reg.next + 1⟩,
         [Event.backup oldU, Event.readKeystore oldU, Event.removeOld oldU,
          Event.installNew reg.next, Event.restoreData reg.next]) := by
    simp [install_wheel_to_platform, hrec, aip_install_agent, backup_agent_data,
          hnewrec, restore_agent_data_from_tgz]
  have hinstall : install_agent reg ident true peer H fuel
      = ⟨.ok reg.next,
         ⟨updateDirL (eraseL reg.agents oldU
             ++ [(reg.next, ⟨ident, [], rec0.pub, rec0.sec⟩)]) reg.next rec0.dataDir,
          reg.next + 1⟩,
         [Event.backup oldU, Event.readKeystore oldU, Event.removeOld oldU,
          Event.installNew reg.next, Event.restoreData reg.next],
         true, true, true, true, st.written⟩ := by
    simp [install_agent, hcheck, htr, hwheel]
  have holdnone :
      lookupL (eraseL reg.agents oldU
          ++ [(reg.next, ⟨ident, [], rec0.pub, rec0.sec⟩)]) oldU = none := by
    rw [lookupL_append_none _ _ _ (lookupL_eraseL_self _ _)]
    simp [lookupL, (Nat.ne_of_lt hold_lt).symm]
  refine ⟨by rw [hinstall], by rw [hinstall], ?_, ?_⟩
  · rw [hinstall]
    show lookupL (updateDirL _ _ _) oldU = none
    rw [lookupL_updateDirL, holdnone]
    rfl
  · refine ⟨⟨ident, rec0.dataDir, rec0.pub, rec0.sec⟩, ?_, rfl, rfl, fun fl hfl => hfl⟩
    rw [hinstall]
    show lookupL (updateDirL _ _ _) reg.next = some _
    rw [lookupL_updateDirL, hnewrec]
    simp

theorem claim_c7_witness :
    (("vip.a" : String) ≠ ""
      ∧ (∀ p ∈ (⟨[(0, ⟨"vip.a", [("cfg", [4, 2])], some "PK", some "SK"⟩)], 1⟩
            : Registry).agents, p.1 < 1)
      ∧ identity_exists ⟨[(0, ⟨"vip.a", [("cfg", [4, 2])], some "PK", some "SK"⟩)], 1⟩
          "vip.a" = some 0
      ∧ lookupL [(0, ⟨"vip.a", [("cfg", [4, 2])], some "PK", some "SK"⟩)] 0
          = some ⟨"vip.a", [("cfg", [4, 2])], some "PK", some "SK"⟩
      ∧ transferLoop (honestPeer (fun l => l) 1024 [9]) (fun l => l) 3 initTransfer
          = .done ⟨[9], [9], 2, 1, some [9]⟩)
    ∧ ((install_agent ⟨[(0, ⟨"vip.a", [("cfg", [4, 2])], some "PK", some "SK"⟩)], 1⟩
          "vip.a" true (honestPeer (fun l => l) 1024 [9]) (fun l => l) 3).result
        = .ok 1
      ∧ (install_agent ⟨[(0, ⟨"vip.a", [("cfg", [4, 2])], some "PK", some "SK"⟩)], 1⟩
          "vip.a" true (honestPeer (fun l => l) 1024 [9]) (fun l => l) 3).events
        = [Event.backup 0, Event.readKeystore 0, Event.removeOld 0,
           Event.installNew 1, Event.restoreData 1]
      ∧ lookupL (install_agent
            ⟨[(0, ⟨"vip.a", [("cfg", [4, 2])], some "PK", some "SK"⟩)], 1⟩
            "vip.a" true (honestPeer (fun l => l) 1024 [9])
            (fun l => l) 3).registry.agents 0 = none
      ∧ ∃ nr, lookupL (install_agent
            ⟨[(0, ⟨"vip.a", [("cfg", [4, 2])], some "PK", some "SK"⟩)], 1⟩
            "vip.a" true (honestPeer (fun l => l) 1024 [9])
            (fun l => l) 3).registry.agents 1 = some nr
          ∧ nr.pub = (⟨"vip.a", [("cfg", [4, 2])], some "PK", some "SK"⟩ : AgentRec).pub
          ∧ nr.sec = (⟨"vip.a", [("cfg", [4, 2])], some "PK", some "SK"⟩ : AgentRec).sec
          ∧ ∀ fl ∈ (⟨"vip.a", [("cfg", [4, 2])], some "PK", some "SK"⟩ : AgentRec).dataDir,
              fl ∈ nr.dataDir) :=
  ⟨⟨by decide, by decide, by decide, by decide, by decide⟩,
   claim_c7 ⟨[(0, ⟨"vip.a", [("cfg", [4, 2])], some "PK", some "SK"⟩)], 1⟩ "vip.a"
     0 ⟨"vip.a", [("cfg", [4, 2])], some "PK", some "SK"⟩ (by decide) (by decide)
     (by decide) (by decide) (honestPeer (fun l => l) 1024 [9]) (fun l => l) 3
     ⟨[9], [9], 2, 1, some [9]⟩ (by decide)⟩
